import Mathlib

/-!
Verification of `sliver/cli.py` (memento-lifeboat).

The file embeds the two CLI operations, `lookup` and `fetch`, as pure Lean
functions. I/O effects of `fetch` (directory creation, proxy start, the
timestamp assignment, the capture-tool invocation, teardown) are modelled as
an explicit event trace; exceptions raised by the external capture tool are a
boolean parameter that cuts the trace at the raise point, exactly as an
uncaught Python exception would.
-/

namespace Sliver

/-- Python's `str.strip()` with no argument: drop leading and trailing
whitespace. Written by structural recursion over the character list so
that it evaluates inside the kernel. -/
def pyStrip (s : String) : String :=
  ⟨((s.data.dropWhile Char.isWhitespace).reverse.dropWhile Char.isWhitespace).reverse⟩

/-- Python's `str.startswith(pre)`, by structural recursion over the
character lists. -/
def pyStartsWith (s pre : String) : Bool :=
  pre.data.isPrefixOf s.data

/-- Query parameters assembled by `lookup` (cli.py lines 138-145) together
with the endpoint URL chosen by the source branches (lines 125-135).
`filter` mirrors the `filter` entry of the Python `params` dict. -/
structure CDXParams where
  endpoint : String
  url : String
  collapse : String
  matchType : String
  limit : Nat
  filter : String
  showResumeKey : Bool
deriving DecidableEq, Repr

/-- The two `ValueError`s that `lookup` can raise, distinguished by their
message: line 133 ("No currently defined method for looking up prefix
queries on the live web!") and line 135 ("Unknown source!"). -/
inductive LookupErr where
  | unsupportedLive
  | unknownSource
deriving DecidableEq, Repr

/-- Result of the source-dispatch part of `lookup`: the request parameters
plus whether the host-only warning of line 128 was logged. -/
structure LookupPlan where
  params : CDXParams
  warnedHostOnly : Bool
deriving DecidableEq, Repr

/-- The source-dispatch and parameter assembly of `lookup`
(cli.py lines 122-145). `matchType` starts as `"prefix"` and `filter` as
`"statuscode:[23].."` (lines 123-124); the Common Crawl branch overwrites
them with `"host"` and `""` and logs a warning (lines 125-129); the `ia`
branch keeps both; `live` and any other source raise before any request. -/
def lookupPrepare (url source : String) : Except LookupErr LookupPlan :=
  if source == "cc-2025-05" || source == "cc" then
    .ok { params := { endpoint := "http://index.commoncrawl.org/CC-MAIN-2025-05-index",
                      url := url, collapse := "urlkey", matchType := "host",
                      limit := 10000, filter := "", showResumeKey := true },
          warnedHostOnly := true }
  else if source == "ia" then
    .ok { params := { endpoint := "https://web.archive.org/cdx/search/cdx",
                      url := url, collapse := "urlkey", matchType := "prefix",
                      limit := 10000, filter := "statuscode:[23]..", showResumeKey := true },
          warnedHostOnly := false }
  else if source == "live" then
    .error .unsupportedLive
  else
    .error .unknownSource

/-- The HTTP requests `lookup` issues. `urllib.request.urlopen` (line 152)
sits after the source branches, so a raising branch issues none and a
successful branch issues exactly one request built from the parameters. -/
def lookupRequests (url source : String) : List CDXParams :=
  match lookupPrepare url source with
  | .error _ => []
  | .ok plan => [plan.params]

/-- The response-consumption loop of `lookup` (cli.py lines 150-162),
with its state threaded explicitly: `ended` records whether the blank
sentinel line was seen, `resumeKey` the resume key captured so far.
Until the sentinel, each line is stripped and echoed as a record; the
sentinel is a line that strips to the empty string; after it, the first
line (stripped, whatever its content) becomes the resume key and all
further lines are ignored. Returns the echoed records and the key. -/
def lookupConsume : Bool → Option String → List String → List String × Option String
  | _, resumeKey, [] => ([], resumeKey)
  | ended, resumeKey, line :: rest =>
    if !ended then
      let cdx := pyStrip line
      if cdx == "" then
        lookupConsume true resumeKey rest
      else
        let out := lookupConsume false resumeKey rest
        (cdx :: out.1, out.2)
    else
      match resumeKey with
      | none => lookupConsume true (some (pyStrip line)) rest
      | some _ => lookupConsume true resumeKey rest

/-- Whole-response processing of `lookup`: the loop of lines 150-162
started with `ended = False` and `resumeKey = None` (lines 150-151). -/
def lookupParse (response : List String) : List String × Option String :=
  lookupConsume false none response

/-- One entry of the `shots` list built by `fetch` (cli.py lines 194-201). -/
structure CaptureJob where
  url : String
  output : String
  wait : Nat
  width : Nat
  height : Nat
  padding : Nat
deriving DecidableEq, Repr

/-- The shot dict appended for one kept URL (cli.py lines 194-201);
`f` stands for shot_scraper's `filename_for_url`, an external pure
function of the URL. -/
def mkShot (f : String → String) (url : String) : CaptureJob :=
  { url := url
    output := "collections/mementos/screenshots/" ++ f url
    wait := 15000
    width := 800
    height := 800
    padding := 0 }

/-- The URL-filtering loop of `fetch` (cli.py lines 190-201): each input
line is stripped; a line that is empty or starts with `#` is skipped,
every other line contributes one shot, in input order. -/
def buildShots (f : String → String) : List String → List CaptureJob
  | [] => []
  | line :: rest =>
    let url := pyStrip line
    if url != "" && !(pyStartsWith url "#") then
      mkShot f url :: buildShots f rest
    else
      buildShots f rest

/-- Spec-side predicate: a stripped line is kept when it is non-blank and
does not begin with the comment marker. -/
def keepLine (u : String) : Bool :=
  u != "" && !(pyStartsWith u "#")

/-- One entry of the `stack` collection sequence built by
`EmbeddedWaybackCli.load` (cli.py lines 72-86), with the dict keys the
code actually uses; a key absent from the dict is `none`. -/
structure SourceTier where
  name : String
  index : Option String
  archive_paths : Option String
  index_paths : Option String
deriving DecidableEq, Repr

/-- The single live tier (cli.py line 74). -/
def liveWebTier : SourceTier :=
  { name := "source", index := some "$live", archive_paths := none, index_paths := none }

/-- The local recording tier (cli.py lines 78-82). -/
def mementosTier : SourceTier :=
  { name := "mementos", index := none,
    archive_paths := some "./collections/mementos/archive/",
    index_paths := some "./collections/mementos/indexes" }

/-- The remote archival-index tier (cli.py lines 83-86). -/
def remoteSourceTier : SourceTier :=
  { name := "source", index := some "memento+https://web.archive.org/web/",
    archive_paths := none, index_paths := none }

/-- The stack sequence chosen by `EmbeddedWaybackCli.load`
(cli.py lines 72-86): a single live tier when the source is `live`,
otherwise the local mementos tier followed by the remote source tier. -/
def stackSequence (source : String) : List SourceTier :=
  if source == "live" then
    [liveWebTier]
  else
    [mementosTier, remoteSourceTier]

/-- Observable effects of one `fetch` run, in program order. -/
inductive FetchEvent where
  | makeDirs (path : String)
  | proxyStart (source : String)
  | sleepWait
  | setDefaultTimestamp (ts : String)
  | writeArtifact
  | runCaptureTool
  | deleteArtifact
  | proxyStop
deriving DecidableEq, Repr

/-- Default of the `--timestamp` option of `fetch` (cli.py line 170). -/
def fetchTimestampDefault : String := "19950101000000"

/-- The effect trace of `fetch` (cli.py lines 171-223), in statement
order: the three `os.makedirs` calls (179-181), proxy start (183-184),
the fixed startup sleep (187), the `proxy_default_timestamp` assignment
(211), the temp-file write (213-216), and the capture-tool call (219).
`captureRaises` models `multi(...)` raising: the code wraps nothing in
try/finally, so an exception propagates and `embedded.ge.stop()`
(line 222) runs only on the normal path. The temp file is opened with
`delete=False` (line 213) and no statement unlinks it, so no
`deleteArtifact` event is ever emitted. The timestamp string is passed
through without any format validation. -/
def fetchTrace (source timestamp : String) (captureRaises : Bool) : List FetchEvent :=
  [ .makeDirs "collections/mementos/indexes",
    .makeDirs "collections/mementos/archive",
    .makeDirs "collections/mementos/screenshots",
    .proxyStart source,
    .sleepWait,
    .setDefaultTimestamp timestamp,
    .writeArtifact,
    .runCaptureTool ]
  ++ (if captureRaises then [] else [.proxyStop])

/-- Spec-side predicate (§7 taxonomy wording): a well-formed timestamp is
14 digits (YYYYMMDDHHMMSS). -/
def isTimestamp14 (s : String) : Bool :=
  s.length == 14 && s.toList.all Char.isDigit

/-! ## Helper lemmas -/

/-- Once the blank sentinel has been passed and a resume key captured, the
loop ignores every remaining line and returns the captured key. -/
theorem lookupConsume_key_fixed (k : String) (ls : List String) :
    lookupConsume true (some k) ls = ([], some k) := by
  induction ls with
  | nil => rfl
  | cons l rest ih => simpa [lookupConsume] using ih

/-- Right after the blank sentinel with no key captured yet, the result is
the stripped next line (when one exists) and no further records. -/
theorem lookupConsume_after_blank (rest : List String) :
    lookupConsume true none rest = ([], rest.head?.map pyStrip) := by
  cases rest with
  | nil => rfl
  | cons l ls => simpa [lookupConsume] using lookupConsume_key_fixed (pyStrip l) ls

/-! ## Claim theorems -/

/-- C3, counterexample. The claim says the continuation token is the next
NON-EMPTY line after the first blank line when one exists. On the response
`["r", "", "", "tok"]` the next non-empty line after the blank sentinel is
`"tok"`, but the code captures the line immediately after the sentinel,
here the second blank, and reports the empty string as resume key. -/
theorem C3_resume_key_counterexample :
    lookupParse ["r", "", "", "tok"] = (["r"], some "")
      ∧ ((["r"], some "") : List String × Option String) ≠ (["r"], some "tok") := by
  decide

/-- C3, amended: for a response of N record lines (each non-blank after
stripping) followed by a blank line, `lookup` yields exactly those N
stripped records; the continuation token is the stripped line immediately
after the first blank line when any line follows (which may itself be
empty), and no token is reported when no line follows the blank line. -/
theorem C3_lookup_stream_records_and_resume_key
    (recs : List String) (blank : String) (rest : List String)
    (hr : ∀ r ∈ recs, pyStrip r ≠ "") (hb : pyStrip blank = "") :
    lookupParse (recs ++ blank :: rest) = (recs.map pyStrip, rest.head?.map pyStrip) := by
  induction recs with
  | nil =>
      simp [lookupParse, lookupConsume, hb, lookupConsume_after_blank]
  | cons r rs ih =>
      have hr0 : pyStrip r ≠ "" := hr r (by simp)
      have hrs : ∀ x ∈ rs, pyStrip x ≠ "" := fun x hx => hr x (by simp [hx])
      have ih2 := ih hrs
      simp only [lookupParse] at ih2 ⊢
      simp [lookupConsume, hr0, ih2]

/-- C3, witness for the amended theorem at a concrete response. -/
theorem C3_lookup_stream_records_and_resume_key_witness :
    lookupParse (["a", "b"] ++ "" :: ["key", "junk"])
      = ((["a", "b"] : List String).map pyStrip, (["key", "junk"] : List String).head?.map pyStrip) :=
  C3_lookup_stream_records_and_resume_key ["a", "b"] "" ["key", "junk"]
    (by decide) (by decide)

/-- C4: for every URL argument, a lookup with source `live` raises the
unsupported-operation `ValueError` of cli.py line 133 and issues no
network request. -/
theorem C4_lookup_live_unsupported_no_request (url : String) :
    lookupPrepare url "live" = .error .unsupportedLive
      ∧ lookupRequests url "live" = [] :=
  ⟨rfl, rfl⟩

/-- C8: the Common Crawl sources force match type `host`, clear the
status-code filter and log a warning, regardless of the caller-side
defaults `prefix` / `statuscode:[23]..`; the `ia` source keeps both
defaults unmodified and logs no warning. -/
theorem C8_matchtype_policy_by_source (url : String) :
    lookupPrepare url "cc"
        = .ok { params := { endpoint := "http://index.commoncrawl.org/CC-MAIN-2025-05-index",
                            url := url, collapse := "urlkey", matchType := "host",
                            limit := 10000, filter := "", showResumeKey := true },
                warnedHostOnly := true }
      ∧ lookupPrepare url "cc-2025-05"
        = .ok { params := { endpoint := "http://index.commoncrawl.org/CC-MAIN-2025-05-index",
                            url := url, collapse := "urlkey", matchType := "host",
                            limit := 10000, filter := "", showResumeKey := true },
                warnedHostOnly := true }
      ∧ lookupPrepare url "ia"
        = .ok { params := { endpoint := "https://web.archive.org/cdx/search/cdx",
                            url := url, collapse := "urlkey", matchType := "prefix",
                            limit := 10000, filter := "statuscode:[23]..", showResumeKey := true },
                warnedHostOnly := false } :=
  ⟨rfl, rfl, rfl⟩

/-- C9: every source identifier outside the four recognised ones raises
the unknown-source `ValueError` of cli.py line 135, and no network
request is issued. -/
theorem C9_unknown_source_rejected (url source : String)
    (h1 : source ≠ "cc-2025-05") (h2 : source ≠ "cc")
    (h3 : source ≠ "ia") (h4 : source ≠ "live") :
    lookupPrepare url source = .error .unknownSource
      ∧ lookupRequests url source = [] := by
  have hp : lookupPrepare url source = .error .unknownSource := by
    simp [lookupPrepare, h1, h2, h3, h4]
  exact ⟨hp, by simp [lookupRequests, hp]⟩

/-- C9, witness at a concrete unknown source. -/
theorem C9_unknown_source_rejected_witness :
    lookupPrepare "https://example.com/" "wat" = .error .unknownSource
      ∧ lookupRequests "https://example.com/" "wat" = [] :=
  C9_unknown_source_rejected "https://example.com/" "wat"
    (by decide) (by decide) (by decide) (by decide)

/-- C1: `fetch` has no try/finally around the capture-tool invocation, so
in a run where `multi(...)` (cli.py line 219) raises, the teardown
`embedded.ge.stop()` (line 222) is never reached and the proxy keeps
running; on the normal path it is reached exactly once. This refutes the
claim that `stop()` is invoked on every exit path after a successful
start. -/
theorem C1_fetch_stop_skipped_when_capture_raises :
    FetchEvent.proxyStop ∉ fetchTrace "ia" "19950101000000" true
      ∧ (fetchTrace "ia" "19950101000000" false).count FetchEvent.proxyStop = 1 := by
  decide

/-- C2: the job-list file is opened with `delete=False` (cli.py line 213)
and no statement ever unlinks it, so no run of `fetch` — raising or not —
deletes the transient artifact, contradicting both the claim and the
code's own comment at line 214. -/
theorem C2_artifact_never_deleted (source ts : String) (captureRaises : Bool) :
    FetchEvent.deleteArtifact ∉ fetchTrace source ts captureRaises := by
  cases captureRaises <;> simp [fetchTrace]

/-- C5, counterexample. `"bad-timestamp"` is not a 14-digit timestamp,
yet the fetch run proceeds: the proxy session is started and the
malformed string is assigned verbatim as the proxy default timestamp,
instead of failing with a configuration error before the proxy starts. -/
theorem C5_malformed_timestamp_counterexample :
    isTimestamp14 "bad-timestamp" = false
      ∧ FetchEvent.proxyStart "ia" ∈ fetchTrace "ia" "bad-timestamp" false
      ∧ FetchEvent.setDefaultTimestamp "bad-timestamp" ∈ fetchTrace "ia" "bad-timestamp" false := by
  decide

/-- C5, amended: `fetch` performs no timestamp-format validation at all:
for every timestamp string, well-formed or not, the run proceeds — the
proxy session is started and the string is assigned verbatim as the
session's default timestamp. -/
theorem C5_no_timestamp_validation (source ts : String) (captureRaises : Bool) :
    FetchEvent.proxyStart source ∈ fetchTrace source ts captureRaises
      ∧ FetchEvent.setDefaultTimestamp ts ∈ fetchTrace source ts captureRaises := by
  cases captureRaises <;> simp [fetchTrace]

/-- C6: with source `live` the stack is the single live-web tier, which
has no archive or index paths (no persistence); with every other source
the stack is exactly the local recording mementos tier at position 0
followed by the remote archival-index tier. -/
theorem C6_stack_construction (source : String) (h : source ≠ "live") :
    (stackSequence "live" = [liveWebTier]
       ∧ liveWebTier.index = some "$live"
       ∧ liveWebTier.archive_paths = none
       ∧ liveWebTier.index_paths = none)
      ∧ (stackSequence source = [mementosTier, remoteSourceTier]
       ∧ mementosTier.archive_paths = some "./collections/mementos/archive/"
       ∧ mementosTier.index_paths = some "./collections/mementos/indexes"
       ∧ remoteSourceTier.index = some "memento+https://web.archive.org/web/"
       ∧ remoteSourceTier.archive_paths = none) := by
  refine ⟨⟨rfl, rfl, rfl, rfl⟩, ?_, rfl, rfl, rfl, rfl⟩
  simp [stackSequence, h]

/-- C6, witness at the concrete archival source `ia`. -/
theorem C6_stack_construction_witness :
    (stackSequence "live" = [liveWebTier]
       ∧ liveWebTier.index = some "$live"
       ∧ liveWebTier.archive_paths = none
       ∧ liveWebTier.index_paths = none)
      ∧ (stackSequence "ia" = [mementosTier, remoteSourceTier]
       ∧ mementosTier.archive_paths = some "./collections/mementos/archive/"
       ∧ mementosTier.index_paths = some "./collections/mementos/indexes"
       ∧ remoteSourceTier.index = some "memento+https://web.archive.org/web/"
       ∧ remoteSourceTier.archive_paths = none) :=
  C6_stack_construction "ia" (by decide)

/-- C7: batch construction keeps exactly the stripped lines that are
non-blank and do not start with `#`, in input order, each job carrying
the screenshot path derived from its URL by `filename_for_url` (here the
abstract `f`) and the fixed wait 15000, viewport 800x800, padding 0 of
`mkShot`; in particular the four-line example yields exactly the two
jobs for `https://a.example/` and `https://b.example/`, in that order. -/
theorem C7_batch_construction (f : String → String) (lines : List String) :
    buildShots f lines = ((lines.map pyStrip).filter keepLine).map (mkShot f)
      ∧ buildShots f ["https://a.example/", "", "# comment", "https://b.example/"]
          = [mkShot f "https://a.example/", mkShot f "https://b.example/"] := by
  constructor
  · induction lines with
    | nil => rfl
    | cons l rest ih =>
        simp only [buildShots, keepLine, List.map_cons, List.filter_cons]
        by_cases hc : (pyStrip l != "" && !(pyStartsWith (pyStrip l) "#")) = true
        · simp [hc, ih]
        · simp [hc, ih]
  · rfl

/-- C10: the `--timestamp` default of `fetch` is `19950101000000`, and in
every run — with the capture tool raising or not — the proxy-start event
precedes the default-timestamp assignment, which precedes the
capture-tool invocation. -/
theorem C10_default_timestamp_pinning (source ts : String) (captureRaises : Bool) :
    fetchTimestampDefault = "19950101000000"
      ∧ ∃ i j k : Nat, i < j ∧ j < k
          ∧ (fetchTrace source ts captureRaises).get? i = some (.proxyStart source)
          ∧ (fetchTrace source ts captureRaises).get? j = some (.setDefaultTimestamp ts)
          ∧ (fetchTrace source ts captureRaises).get? k = some .runCaptureTool :=
  ⟨rfl, 3, 5, 7, by omega, by omega, rfl, rfl, rfl⟩

end Sliver
